import Mathlib

/-
Verification of the ImpresorasTecni repository (printer service-case tracker).

Shallow embedding notes:
- Records are modelled after src/types/impresora.ts and the supabase table
  schema (estado is a TEXT column, so it is a String here; observaciones,
  motivoResolucion and descripcionProceso default to the empty string in the
  schema, so they are plain Strings; fechaEntrega and fechaActualizacionEstado
  are nullable, so they are Option String).
- Timestamps are opaque strings supplied as parameters (the code calls
  new Date().toISOString() or toLocaleDateString; we pass the produced string).
- JavaScript String.prototype.trim is modelled by recortar below, defined
  structurally over the character list so that concrete instances evaluate
  inside the kernel.
- The supabase .update(datos) call applies exactly the keys present in the
  object; Cambios mirrors a partial record and aplicarCambios merges it.
-/

/-- Model of JavaScript ASCII whitespace for trim (the inputs in this
development are ASCII). -/
def esEspacio (c : Char) : Bool :=
  c == ' ' || c == '\t' || c == '\n' || c == '\r'

/-- Model of JavaScript String.prototype.trim: drop whitespace from both
ends.  Defined structurally so that the kernel can evaluate it. -/
def recortar (s : String) : String :=
  String.mk (((s.data.dropWhile esEspacio).reverse.dropWhile esEspacio).reverse)

/-- The three-state status enum of src/types/impresora.ts, as the string
values stored in the estado TEXT column. -/
def estadosValidos : List String := ["pendiente", "en_proceso", "resuelto"]

def esEstadoValido (s : String) : Bool := estadosValidos.contains s

/-- A case record (interface Impresora, src/types/impresora.ts). -/
structure Impresora where
  id : String
  referencia : String
  cliente : String
  nitCC : String
  telefono : String
  observaciones : String
  fechaIngreso : String
  fechaEntrega : Option String
  estado : String
  fechaActualizacionEstado : Option String
  motivoResolucion : String
  descripcionProceso : String
  numeroCaso : Nat
deriving DecidableEq

/-- A partial update object as passed to supabase .update(datos) by
actualizarImpresora (src/lib/database.ts).  Every column can in principle be
carried by such an object (the TypeScript Omit is a compile-time restriction
only), so id and fechaIngreso appear here as well; the theorems show the
route handler never populates them. -/
structure Cambios where
  id : Option String := none
  referencia : Option String := none
  cliente : Option String := none
  nitCC : Option String := none
  telefono : Option String := none
  observaciones : Option String := none
  fechaIngreso : Option String := none
  fechaEntrega : Option String := none
  estado : Option String := none
  fechaActualizacionEstado : Option String := none
  motivoResolucion : Option String := none
  descripcionProceso : Option String := none
  numeroCaso : Option Nat := none
deriving DecidableEq

/-- Merge a partial update into a stored record: exactly the keys present in
the update object overwrite the stored columns (supabase row update). -/
def aplicarCambios (imp : Impresora) (c : Cambios) : Impresora where
  id := c.id.getD imp.id
  referencia := c.referencia.getD imp.referencia
  cliente := c.cliente.getD imp.cliente
  nitCC := c.nitCC.getD imp.nitCC
  telefono := c.telefono.getD imp.telefono
  observaciones := c.observaciones.getD imp.observaciones
  fechaIngreso := c.fechaIngreso.getD imp.fechaIngreso
  fechaEntrega := match c.fechaEntrega with
    | some v => some v
    | none => imp.fechaEntrega
  estado := c.estado.getD imp.estado
  fechaActualizacionEstado := match c.fechaActualizacionEstado with
    | some v => some v
    | none => imp.fechaActualizacionEstado
  motivoResolucion := c.motivoResolucion.getD imp.motivoResolucion
  descripcionProceso := c.descripcionProceso.getD imp.descripcionProceso
  numeroCaso := c.numeroCaso.getD imp.numeroCaso

/-- cambiarEstadoCaso (src/lib/database.ts lines 271-285): set estado and
fechaActualizacionEstado, and when the new status is resuelto also set
fechaEntrega to now - unconditionally, whether or not it was already set. -/
def cambiarEstadoCaso (imp : Impresora) (nuevoEstado : String) (ahora : String) : Impresora :=
  aplicarCambios imp
    { estado := some nuevoEstado,
      fechaActualizacionEstado := some ahora,
      fechaEntrega := if nuevoEstado = "resuelto" then some ahora else none }

/-- JSON body of a PATCH request, as destructured by the handler in
src/app/api/impresoras/[id]/route.ts line 63.  The handler reads only the
first eight fields; id and fechaIngreso may be present in the payload but are
never read. -/
structure Cuerpo where
  referencia : Option String := none
  cliente : Option String := none
  nitCC : Option String := none
  telefono : Option String := none
  observaciones : Option String := none
  estado : Option String := none
  motivoResolucion : Option String := none
  descripcionProceso : Option String := none
  id : Option String := none
  fechaIngreso : Option String := none
deriving DecidableEq

/-- Outcome of a PATCH request as produced by the route handler. -/
inductive Respuesta where
  | ok (impresora : Impresora)
  | solicitudInvalida (mensaje : String)
  | errorInterno (mensaje : String)
deriving DecidableEq

/-- Stored record after the request together with the HTTP-level response. -/
structure ResultadoPATCH where
  almacenado : Impresora
  respuesta : Respuesta
deriving DecidableEq

/-- True when an optional body field is present but trims to the empty
string (the !campo.trim() validation of the route handler). -/
def vacioSiPresente (o : Option String) : Bool :=
  match o with
  | some s => recortar s == ""
  | none => false

/-- The field-update path of the PATCH handler (route.ts lines 106-163):
validate the required fields that are present, build the partial update with
trimmed values, perform one write.  escrituraOk injects the outcome of that
single supabase write (false models a rejected write, which the code maps to
a 500 response leaving the store unchanged). -/
def actualizarCampos (imp : Impresora) (cuerpo : Cuerpo) (escrituraOk : Bool) : ResultadoPATCH :=
  if vacioSiPresente cuerpo.referencia then
    { almacenado := imp, respuesta := .solicitudInvalida "La referencia no puede estar vacía" }
  else if vacioSiPresente cuerpo.cliente then
    { almacenado := imp, respuesta := .solicitudInvalida "El cliente no puede estar vacío" }
  else if vacioSiPresente cuerpo.nitCC then
    { almacenado := imp, respuesta := .solicitudInvalida "El NIT/CC no puede estar vacío" }
  else if vacioSiPresente cuerpo.telefono then
    { almacenado := imp, respuesta := .solicitudInvalida "El teléfono no puede estar vacío" }
  else
    let datos : Cambios :=
      { referencia := cuerpo.referencia.map recortar,
        cliente := cuerpo.cliente.map recortar,
        nitCC := cuerpo.nitCC.map recortar,
        telefono := cuerpo.telefono.map recortar,
        observaciones := cuerpo.observaciones.map recortar,
        motivoResolucion := cuerpo.motivoResolucion.map recortar,
        descripcionProceso := cuerpo.descripcionProceso.map recortar }
    if escrituraOk then
      let imp2 := aplicarCambios imp datos
      { almacenado := imp2, respuesta := .ok imp2 }
    else
      { almacenado := imp, respuesta := .errorInterno "Error al actualizar impresora" }

/-- The PATCH handler (route.ts lines 57-171) for an existing record.
If the body carries an estado value belonging to the enum, the handler first
writes the status change via cambiarEstadoCaso (first write, outcome
escritura1Ok), then, when motivoResolucion, descripcionProceso or
observaciones accompany it, performs a second independent write with those
fields (outcome escritura2Ok); a failed second write leaves the first write
committed and responds with the record of the first write.  Any other body -
including an estado value outside the enum, which the membership test lets
fall through - takes the field-update path. -/
def procesarPATCH (imp : Impresora) (cuerpo : Cuerpo) (ahora : String)
    (escritura1Ok escritura2Ok : Bool) : ResultadoPATCH :=
  match cuerpo.estado with
  | some s =>
    if esEstadoValido s then
      if escritura1Ok then
        let imp1 := cambiarEstadoCaso imp s ahora
        let adicionales : Cambios :=
          { motivoResolucion := cuerpo.motivoResolucion.map recortar,
            descripcionProceso := cuerpo.descripcionProceso.map recortar,
            observaciones := cuerpo.observaciones }
        if cuerpo.motivoResolucion.isSome || cuerpo.descripcionProceso.isSome
            || cuerpo.observaciones.isSome then
          if escritura2Ok then
            let imp2 := aplicarCambios imp1 adicionales
            { almacenado := imp2, respuesta := .ok imp2 }
          else
            { almacenado := imp1, respuesta := .ok imp1 }
        else
          { almacenado := imp1, respuesta := .ok imp1 }
      else
        { almacenado := imp, respuesta := .errorInterno "Error al actualizar estado" }
    else
      actualizarCampos imp cuerpo escritura1Ok
  | none => actualizarCampos imp cuerpo escritura1Ok

/-- The confirm action of ModalCerrarCaso / ModalEnProceso
(src/components): refuse an input that trims to empty (the modal shows an
error and does not call back), otherwise hand the trimmed text to the
caller. -/
def confirmarModal (texto : String) : Option String :=
  if recortar texto = "" then none else some (recortar texto)

/-- nuevaObservacion built by manejarConfirmarEnProceso
(src/unnamed/part_004 lines 156-171): when the existing observaciones trim to
something non-empty, append the timestamped entry after the TRIMMED existing
text separated by a blank line; otherwise the entry alone. -/
def nuevaObservacion (existentes fecha descripcion : String) : String :=
  if recortar existentes = "" then
    "[" ++ fecha ++ "] En Proceso: " ++ descripcion
  else
    recortar existentes ++ "\n\n[" ++ fecha ++ "] En Proceso: " ++ descripcion

/-- The full client flow of manejarConfirmarEnProceso: build the new
observaciones from the record's current ones and PATCH estado=en_proceso
together with them (both writes succeeding). -/
def flujoEnProceso (imp : Impresora) (descripcion fecha ahora : String) : ResultadoPATCH :=
  procesarPATCH imp
    { estado := some "en_proceso",
      observaciones := some (nuevaObservacion imp.observaciones fecha descripcion) }
    ahora true true

/-- The body sent by manejarConfirmarCerrarCaso (src/unnamed/part_004
lines 214-228): estado resuelto plus the resolution note. -/
def cuerpoCerrarCaso (m : String) : Cuerpo :=
  { estado := some "resuelto", motivoResolucion := some m }

/-- A sample stored record used by concrete counterexamples. -/
def impEjemplo : Impresora :=
  { id := "1700000000000abc",
    referencia := "HP M404dn",
    cliente := "Ana Ruiz",
    nitCC := "123",
    telefono := "3000000000",
    observaciones := "",
    fechaIngreso := "2024-01-10T08:00:00Z",
    fechaEntrega := none,
    estado := "pendiente",
    fechaActualizacionEstado := none,
    motivoResolucion := "",
    descripcionProceso := "",
    numeroCaso := 1 }

lemma actualizarCampos_id (imp : Impresora) (cuerpo : Cuerpo) (ok : Bool) :
    (actualizarCampos imp cuerpo ok).almacenado.id = imp.id ∧
    (actualizarCampos imp cuerpo ok).almacenado.fechaIngreso = imp.fechaIngreso := by
  unfold actualizarCampos
  split_ifs <;> simp [aplicarCambios]

lemma actualizarCampos_estado (imp : Impresora) (cuerpo : Cuerpo) (ok : Bool) :
    (actualizarCampos imp cuerpo ok).almacenado.estado = imp.estado := by
  unfold actualizarCampos
  split_ifs <;> simp [aplicarCambios]

/-- Claim C7 (confirmed): for every PATCH payload and every write outcome,
the stored record's id and fechaIngreso after the request are identical to
their values before it - the handler never copies those payload fields into
an update. -/
theorem c7_teorema (imp : Impresora) (cuerpo : Cuerpo) (ahora : String) (e1 e2 : Bool) :
    (procesarPATCH imp cuerpo ahora e1 e2).almacenado.id = imp.id ∧
    (procesarPATCH imp cuerpo ahora e1 e2).almacenado.fechaIngreso = imp.fechaIngreso := by
  unfold procesarPATCH
  cases hE : cuerpo.estado with
  | none => exact actualizarCampos_id imp cuerpo e1
  | some s =>
    simp only []
    split_ifs <;> first
      | exact actualizarCampos_id imp cuerpo e1
      | simp [cambiarEstadoCaso, aplicarCambios]

/-- Claim C2, amended: transitioning a case to resuelto always sets
fechaEntrega to the current time, overwriting any value already present; the
supplied resolution note is stored trimmed (not verbatim) in
motivoResolucion; observaciones are left untouched. -/
theorem c2_teorema (imp : Impresora) (m ahora : String) :
    (procesarPATCH imp (cuerpoCerrarCaso m) ahora true true).almacenado.fechaEntrega = some ahora ∧
    (procesarPATCH imp (cuerpoCerrarCaso m) ahora true true).almacenado.motivoResolucion = recortar m ∧
    (procesarPATCH imp (cuerpoCerrarCaso m) ahora true true).almacenado.observaciones = imp.observaciones ∧
    (procesarPATCH imp (cuerpoCerrarCaso m) ahora true true).almacenado.estado = "resuelto" := by
  simp [procesarPATCH, cuerpoCerrarCaso, esEstadoValido, estadosValidos, cambiarEstadoCaso, aplicarCambios]

/-- A record that already carries a delivery date, used to refute the
keep-deliveredAt-if-set half of claim C2. -/
def impConEntrega : Impresora :=
  { impEjemplo with estado := "en_proceso", fechaEntrega := some "2024-01-20T10:00:00Z" }

/-- Claim C2 counterexample: resolving a case whose fechaEntrega is already
set replaces it with the new timestamp (the code sets it unconditionally),
and a resolution note with surrounding whitespace is not stored verbatim
(the handler trims it). -/
theorem c2_contraejemplo :
    (cambiarEstadoCaso impConEntrega "resuelto" "2024-02-02T09:00:00Z").fechaEntrega ≠ impConEntrega.fechaEntrega ∧
    (procesarPATCH impConEntrega (cuerpoCerrarCaso " listo ") "2024-02-02T09:00:00Z" true true).almacenado.motivoResolucion ≠ " listo " := by
  decide

/-- Claim C10 (confirmed): a PATCH carrying estado=resuelto plus a note is
executed as two independent writes; when the second write fails the status
change of the first write (estado, fechaActualizacionEstado, fechaEntrega)
persists, the note is not stored, and the response body is the record of the
first write; when both succeed the final record is the second write applied
on top of the first. -/
theorem c10_teorema (imp : Impresora) (m ahora : String) :
    (procesarPATCH imp (cuerpoCerrarCaso m) ahora true false).almacenado = cambiarEstadoCaso imp "resuelto" ahora ∧
    (procesarPATCH imp (cuerpoCerrarCaso m) ahora true false).respuesta = Respuesta.ok (cambiarEstadoCaso imp "resuelto" ahora) ∧
    (procesarPATCH imp (cuerpoCerrarCaso m) ahora true false).almacenado.motivoResolucion = imp.motivoResolucion ∧
    (procesarPATCH imp (cuerpoCerrarCaso m) ahora true true).almacenado =
      aplicarCambios (cambiarEstadoCaso imp "resuelto" ahora) { motivoResolucion := some (recortar m) } := by
  refine ⟨?_, ?_, ?_, ?_⟩ <;>
    simp [procesarPATCH, cuerpoCerrarCaso, esEstadoValido, estadosValidos, cambiarEstadoCaso, aplicarCambios]

/-- Claim C8, amended: the stored status can never leave the three-value
enum - a status-change request only writes a membership-checked value and
every other path leaves estado untouched - but a payload whose estado lies
outside the enum is not rejected: it silently falls through to the plain
field-update path. -/
theorem c8_teorema (imp : Impresora) (cuerpo : Cuerpo) (ahora : String) (e1 e2 : Bool) :
    (procesarPATCH imp cuerpo ahora e1 e2).almacenado.estado = imp.estado ∨
    esEstadoValido (procesarPATCH imp cuerpo ahora e1 e2).almacenado.estado = true := by
  unfold procesarPATCH
  cases hE : cuerpo.estado with
  | none => exact Or.inl (actualizarCampos_estado imp cuerpo e1)
  | some s =>
    simp only []
    split_ifs with h1 h2 h3 h4
    · right; simpa [aplicarCambios, cambiarEstadoCaso] using h1
    · right; simpa [aplicarCambios, cambiarEstadoCaso] using h1
    · right; simpa [aplicarCambios, cambiarEstadoCaso] using h1
    · left; rfl
    · exact Or.inl (actualizarCampos_estado imp cuerpo e1)

/-- Claim C8 counterexample: a PATCH whose estado is the out-of-enum value
"roto" is answered with a success response (the other fields are applied),
not with an InvalidStatus-style validation failure; the stored status is
silently left unchanged. -/
theorem c8_contraejemplo :
    (procesarPATCH impEjemplo { estado := some "roto", cliente := some "ACME" } "t" true true).respuesta =
      Respuesta.ok { impEjemplo with cliente := "ACME" } ∧
    (procesarPATCH impEjemplo { estado := some "roto", cliente := some "ACME" } "t" true true).almacenado.estado =
      impEjemplo.estado := by
  decide

/-- Claim C4, amended: the API handler performs no note validation at all -
a transition to en_proceso (or resuelto) with no note in the payload
succeeds and changes the stored status; the mandatory-note check exists only
client-side, in the modals, which refuse exactly the inputs that trim to the
empty string. -/
theorem c4_teorema :
    (∀ (imp : Impresora) (ahora : String),
        (procesarPATCH imp { estado := some "en_proceso" } ahora true true).almacenado.estado = "en_proceso" ∧
        (procesarPATCH imp { estado := some "en_proceso" } ahora true true).respuesta =
          Respuesta.ok (cambiarEstadoCaso imp "en_proceso" ahora)) ∧
    (∀ texto : String, confirmarModal texto = none ↔ recortar texto = "") := by
  constructor
  · intro imp ahora
    simp [procesarPATCH, esEstadoValido, estadosValidos, cambiarEstadoCaso, aplicarCambios]
  · intro texto
    unfold confirmarModal
    split_ifs with h <;> simp [h]

/-- Claim C4 counterexample: a status-change request to en_proceso whose
payload carries no processNote is not rejected - the handler answers with a
success response and the stored status is now en_proceso. -/
theorem c4_contraejemplo :
    (procesarPATCH impEjemplo { estado := some "en_proceso" } "2024-05-05T10:00:00Z" true true).almacenado.estado = "en_proceso" ∧
    (procesarPATCH impEjemplo { estado := some "en_proceso" } "2024-05-05T10:00:00Z" true true).respuesta =
      Respuesta.ok (cambiarEstadoCaso impEjemplo "en_proceso" "2024-05-05T10:00:00Z") := by
  decide

/-- Claim C3, amended: transitioning to en_proceso stores observaciones of
the exact form timestamp-bracket entry; when the prior notes trim to
something non-empty the entry is appended after the TRIMMED prior content
separated by a blank line (the code first strips leading/trailing
whitespace from the prior notes), otherwise the entry stands alone. -/
theorem c3_teorema (imp : Impresora) (descripcion fecha ahora : String) :
    (flujoEnProceso imp descripcion fecha ahora).almacenado.estado = "en_proceso" ∧
    (recortar imp.observaciones = "" →
      (flujoEnProceso imp descripcion fecha ahora).almacenado.observaciones =
        "[" ++ fecha ++ "] En Proceso: " ++ descripcion) ∧
    (recortar imp.observaciones ≠ "" →
      (flujoEnProceso imp descripcion fecha ahora).almacenado.observaciones =
        recortar imp.observaciones ++ "\n\n[" ++ fecha ++ "] En Proceso: " ++ descripcion) := by
  refine ⟨?_, ?_, ?_⟩
  · simp [flujoEnProceso, procesarPATCH, esEstadoValido, estadosValidos, cambiarEstadoCaso, aplicarCambios]
  · intro h
    simp [flujoEnProceso, procesarPATCH, esEstadoValido, estadosValidos, cambiarEstadoCaso,
      aplicarCambios, nuevaObservacion, h]
  · intro h
    simp [flujoEnProceso, procesarPATCH, esEstadoValido, estadosValidos, cambiarEstadoCaso,
      aplicarCambios, nuevaObservacion, h]

/-- A record whose prior notes end in a space, used to refute the
prior-content-preserved-unchanged half of claim C3. -/
def impObsColgante : Impresora := { impEjemplo with observaciones := "A " }

/-- Claim C3 counterexample: with prior notes "A " (trailing space) the
result is the TRIMMED prior text "A" followed by the new entry, not the
unchanged prior text - so the prior note content is not preserved
byte-for-byte before the appended entry. -/
theorem c3_contraejemplo :
    (flujoEnProceso impObsColgante "d" "f" "t").almacenado.observaciones = "A\n\n[f] En Proceso: d" ∧
    (flujoEnProceso impObsColgante "d" "f" "t").almacenado.observaciones ≠
      impObsColgante.observaciones ++ "\n\n[f] En Proceso: d" := by
  decide

/-- A record with non-empty prior notes for the C3 witness. -/
def impConObs : Impresora := { impEjemplo with observaciones := "Tapa floja" }

/-- Witness for c3_teorema at a concrete record with non-empty prior
notes. -/
theorem c3_testigo :
    recortar impConObs.observaciones ≠ "" ∧
    (flujoEnProceso impConObs "replacing fuser" "1 feb 2024" "t").almacenado.observaciones =
      recortar impConObs.observaciones ++ "\n\n[" ++ "1 feb 2024" ++ "] En Proceso: " ++ "replacing fuser" :=
  ⟨by decide, (c3_teorema impConObs "replacing fuser" "1 feb 2024" "t").2.2 (by decide)⟩

/-- Maximum numeroCaso over the stored rows (0 when the table is empty);
this is the order-by-numeroCaso-descending-limit-1 query of
obtenerSiguienteNumeroCaso, src/lib/database.ts lines 121-150. -/
def maxNumero (store : List Impresora) : Nat :=
  store.foldr (fun imp m => max imp.numeroCaso m) 0

/-- obtenerSiguienteNumeroCaso: the top row's numeroCaso plus one; the code
returns 1 when there is no row or when the top value is falsy (0), which for
natural numbers is exactly the maxNumero-equals-zero test. -/
def siguienteNumeroCaso (store : List Impresora) : Nat :=
  if maxNumero store = 0 then 1 else maxNumero store + 1

/-- The caller-supplied creation fields of crearImpresora plus the generated
id and intake timestamp. -/
structure ArgsCrear where
  id : String
  referencia : String
  cliente : String
  nitCC : String
  telefono : String
  observaciones : String
  fechaIngreso : String
deriving DecidableEq

/-- crearImpresora (src/lib/database.ts lines 169-213): build the new row
with estado pendiente and the freshly allocated consecutive numeroCaso. -/
def crearRegistro (store : List Impresora) (a : ArgsCrear) : Impresora :=
  { id := a.id, referencia := a.referencia, cliente := a.cliente, nitCC := a.nitCC,
    telefono := a.telefono, observaciones := a.observaciones, fechaIngreso := a.fechaIngreso,
    fechaEntrega := none, estado := "pendiente", fechaActualizacionEstado := none,
    motivoResolucion := "", descripcionProceso := "",
    numeroCaso := siguienteNumeroCaso store }

/-- A sequential (no-concurrency) history of create and delete operations
against the store; eliminarImpresora is the row deletion of
src/lib/database.ts lines 298-321. -/
inductive Op where
  | crear (a : ArgsCrear)
  | eliminar (id : String)
deriving DecidableEq

/-- The numeroCaso values handed out by the successive creates of a
history. -/
def numerosAsignados : List Impresora → List Op → List Nat
  | _, [] => []
  | store, Op.crear a :: ops =>
      siguienteNumeroCaso store :: numerosAsignados (store ++ [crearRegistro store a]) ops
  | store, Op.eliminar i :: ops => numerosAsignados (store.filter fun x => x.id != i) ops

/-- A delete is safe for numbering when no row with the target id holds the
current maximum numeroCaso. -/
def borradoSeguro (store : List Impresora) (i : String) : Bool :=
  store.all fun x => x.id != i || decide (x.numeroCaso < maxNumero store)

/-- Every delete of the history is safe in the sense of borradoSeguro. -/
def eliminacionesSeguras : List Impresora → List Op → Bool
  | _, [] => true
  | store, Op.crear a :: ops => eliminacionesSeguras (store ++ [crearRegistro store a]) ops
  | store, Op.eliminar i :: ops =>
      borradoSeguro store i && eliminacionesSeguras (store.filter fun x => x.id != i) ops

lemma maxNumero_cons (y : Impresora) (t : List Impresora) :
    maxNumero (y :: t) = max y.numeroCaso (maxNumero t) := rfl

lemma le_maxNumero_of_mem {x : Impresora} {l : List Impresora} (h : x ∈ l) :
    x.numeroCaso ≤ maxNumero l := by
  induction l with
  | nil => cases h
  | cons y t ih =>
    rw [maxNumero_cons]
    rcases List.mem_cons.mp h with rfl | h'
    · omega
    · have := ih h'
      omega

lemma maxNumero_append (l : List Impresora) (x : Impresora) :
    maxNumero (l ++ [x]) = max (maxNumero l) x.numeroCaso := by
  induction l with
  | nil => simp [maxNumero]
  | cons y t ih =>
    rw [List.cons_append, maxNumero_cons, ih, maxNumero_cons]
    omega

lemma maxNumero_filter_le (l : List Impresora) (p : Impresora → Bool) :
    maxNumero (l.filter p) ≤ maxNumero l := by
  induction l with
  | nil => simp [maxNumero]
  | cons y t ih =>
    rw [List.filter_cons, maxNumero_cons]
    by_cases h : p y = true
    · rw [if_pos h, maxNumero_cons]
      omega
    · rw [if_neg h]
      omega

lemma maxNumero_attained (l : List Impresora) (h : maxNumero l ≠ 0) :
    ∃ x ∈ l, x.numeroCaso = maxNumero l := by
  induction l with
  | nil => simp [maxNumero] at h
  | cons y t ih =>
    rw [maxNumero_cons] at h ⊢
    by_cases hyt : maxNumero t ≤ y.numeroCaso
    · exact ⟨y, List.mem_cons_self _ _, (max_eq_left hyt).symm⟩
    · have hmx : max y.numeroCaso (maxNumero t) = maxNumero t :=
        max_eq_right (le_of_not_le hyt)
      rw [hmx] at h ⊢
      obtain ⟨x, hx, hn⟩ := ih h
      exact ⟨x, List.mem_cons_of_mem _ hx, hn⟩

lemma siguiente_gt_max (store : List Impresora) :
    maxNumero store < siguienteNumeroCaso store := by
  unfold siguienteNumeroCaso
  split_ifs with h <;> omega

/-- Along any history whose deletes never remove a row holding the current
maximum numeroCaso, the allocated numbers are strictly increasing and all
exceed the starting maximum. -/
lemma asignados_crecientes : ∀ (ops : List Op) (store : List Impresora),
    eliminacionesSeguras store ops = true →
    List.Pairwise (fun a b => a < b) (numerosAsignados store ops) ∧
    ∀ m ∈ numerosAsignados store ops, maxNumero store < m := by
  intro ops
  induction ops with
  | nil => intro store _; simp [numerosAsignados]
  | cons op rest ih =>
    intro store hseg
    cases op with
    | crear a =>
      simp only [eliminacionesSeguras] at hseg
      obtain ⟨hpw, hlb⟩ := ih (store ++ [crearRegistro store a]) hseg
      have hmax : maxNumero (store ++ [crearRegistro store a]) = siguienteNumeroCaso store := by
        rw [maxNumero_append]
        have := siguiente_gt_max store
        simp only [crearRegistro]
        omega
      simp only [numerosAsignados]
      constructor
      · refine List.Pairwise.cons ?_ hpw
        intro b hb
        have := hlb b hb
        rw [hmax] at this
        omega
      · intro m hm
        rcases List.mem_cons.mp hm with rfl | hm'
        · exact siguiente_gt_max store
        · have := hlb m hm'
          rw [hmax] at this
          have := siguiente_gt_max store
          omega
    | eliminar i =>
      simp only [eliminacionesSeguras, Bool.and_eq_true] at hseg
      obtain ⟨hB, hrest⟩ := hseg
      obtain ⟨hpw, hlb⟩ := ih _ hrest
      simp only [numerosAsignados]
      refine ⟨hpw, ?_⟩
      intro m hm
      have hm' := hlb m hm
      by_cases h0 : maxNumero store = 0
      · have hf := maxNumero_filter_le store (fun x => x.id != i)
        omega
      · obtain ⟨x, hx, hxn⟩ := maxNumero_attained store h0
        have hxid : (x.id != i) = true := by
          simp only [borradoSeguro, List.all_eq_true] at hB
          rcases Bool.or_eq_true _ _ |>.mp (hB x hx) with h | h
          · exact h
          · exfalso
            have := of_decide_eq_true h
            omega
        have hxf : x ∈ store.filter (fun x => x.id != i) :=
          List.mem_filter.mpr ⟨hx, hxid⟩
        have hle := le_maxNumero_of_mem hxf
        omega

/-- Claim C1, amended: every create allocates the current maximum plus one
(1 on an empty store), so over any sequential history starting from the
empty store whose deletes never remove a row holding the current maximum
numeroCaso, the allocated case numbers are strictly increasing - hence
unique, with no reuse.  (Deleting the row that holds the current maximum
can make the next create reuse that number; see the counterexample.) -/
theorem c1_teorema (ops : List Op) (h : eliminacionesSeguras [] ops = true) :
    List.Pairwise (fun a b => a < b) (numerosAsignados [] ops) :=
  (asignados_crecientes ops [] h).1

def argsA : ArgsCrear := ⟨"a", "HP M404dn", "Ana Ruiz", "123", "3000000000", "", "t1"⟩
def argsB : ArgsCrear := ⟨"b", "Epson L3110", "Luis Prada", "456", "3011111111", "", "t2"⟩
def argsC : ArgsCrear := ⟨"c", "Canon G2110", "Eva Soto", "789", "3022222222", "", "t3"⟩

/-- create, create, delete the case holding the current maximum, create. -/
def opsReuso : List Op := [Op.crear argsA, Op.crear argsB, Op.eliminar "b", Op.crear argsC]

/-- Claim C1 counterexample: after create (number 1), create (number 2) and
delete of the second case, the next create computes the maximum over the
remaining rows and allocates 2 again - the deleted case's number is reused,
refuting the no-reuse-after-any-delete claim. -/
theorem c1_contraejemplo :
    numerosAsignados [] opsReuso = [1, 2, 2] ∧
    ¬ (numerosAsignados [] opsReuso).Nodup := by
  decide

/-- create, create, delete a non-maximum case, create. -/
def opsSeguro : List Op := [Op.crear argsA, Op.crear argsB, Op.eliminar "a", Op.crear argsC]

/-- Witness for c1_teorema on a concrete history containing a safe
delete. -/
theorem c1_testigo :
    eliminacionesSeguras [] opsSeguro = true ∧
    List.Pairwise (fun a b => a < b) (numerosAsignados [] opsSeguro) :=
  ⟨by decide, c1_teorema opsSeguro (by decide)⟩

/-- Outcome of a single supabase call, as observed by the functions of
src/lib/database.ts: either the data or an error object.  Each function
performs exactly one such call - there is no retry anywhere. -/
inductive ResultadoBD (α : Type) where
  | exito (valor : α)
  | fallo (mensaje : String)

/-- leerImpresoras (src/lib/database.ts lines 38-67): on any query error or
exception the function logs and returns the empty list - the same value a
successful read of an empty table produces. -/
def leerImpresorasBD (r : ResultadoBD (List Impresora)) : List Impresora :=
  match r with
  | .exito filas => filas
  | .fallo _ => []

/-- obtenerImpresoraPorId (lines 80-109): errors collapse to null, the same
value returned when the id does not exist. -/
def obtenerImpresoraPorIdBD (r : ResultadoBD Impresora) : Option Impresora :=
  match r with
  | .exito imp => some imp
  | .fallo _ => none

/-- crearImpresora (lines 169-213): an insert error is re-thrown to the
caller with the supabase message. -/
def crearImpresoraBD (r : ResultadoBD Impresora) : Except String Impresora :=
  match r with
  | .exito imp => .ok imp
  | .fallo m => .error ("Error de Supabase: " ++ m)

/-- actualizarImpresora (lines 228-256): an update error collapses to null,
the same value returned for an unknown id. -/
def actualizarImpresoraBD (r : ResultadoBD Impresora) : Option Impresora :=
  match r with
  | .exito imp => some imp
  | .fallo _ => none

/-- eliminarImpresora (lines 298-321): false on error (and also when the
row is absent). -/
def eliminarImpresoraBD (r : ResultadoBD Unit) : Bool :=
  match r with
  | .exito _ => true
  | .fallo _ => false

/-- Claim C9 counterexample: the list operation maps a persistence failure
to the empty list, the very value a successful read of an empty store
returns - a persistence failure silently becomes a successful-looking
result; the get operation likewise collapses a failure to the not-found
value. -/
theorem c9_contraejemplo :
    leerImpresorasBD (ResultadoBD.fallo "backend unreachable") =
      leerImpresorasBD (ResultadoBD.exito []) ∧
    obtenerImpresoraPorIdBD (ResultadoBD.fallo "backend unreachable") = none :=
  ⟨rfl, rfl⟩

/-- Claim C9, amended: no operation retries (each consumes exactly one
backend outcome by construction); create surfaces the failure to its caller
as a thrown error, delete reports false; but list converts a failure into
the empty list and get/update convert it into the same null that means
not-found, so those three callers cannot distinguish failure from a benign
result. -/
theorem c9_teorema :
    (∀ m, leerImpresorasBD (ResultadoBD.fallo m) = []) ∧
    (∀ m, obtenerImpresoraPorIdBD (ResultadoBD.fallo m) = none) ∧
    (∀ m, crearImpresoraBD (ResultadoBD.fallo m) = Except.error ("Error de Supabase: " ++ m)) ∧
    (∀ m, actualizarImpresoraBD (ResultadoBD.fallo m) = none) ∧
    (∀ m, eliminarImpresoraBD (ResultadoBD.fallo m) = false) :=
  ⟨fun _ => rfl, fun _ => rfl, fun _ => rfl, fun _ => rfl, fun _ => rfl⟩

/-- jsPDF default page is A4 portrait in millimetres; its reported height is
297.0000833.  Every cursor movement in src/lib/pdf.ts is an integer, and for
integer y the strict test y + esp > 297.0000833 - 20 used by the code agrees
exactly with y + esp > 277, so the height is modelled as the integer 297. -/
def altoPagina : Nat := 297

def margenPag : Nat := 20

def limiteInferior : Nat := altoPagina - margenPag

/-- The kinds of items the PDF composers draw.  textoFirma marks the four
name/date text lines at the tail of the signature block, the only drawn
items not preceded by their own pagination check. -/
inductive Bloque where
  | titulo | numeroCaso | separador | etiqueta | encabezado
  | lineaObs | lineaTexto | rectFirma | tituloFirma | textoFirma
deriving DecidableEq

/-- One drawn item: the page it lands on, its vertical position, its kind. -/
structure Evento where
  pagina : Nat
  y : Nat
  bloque : Bloque
deriving DecidableEq

/-- Drawing state: current page, vertical cursor, items drawn so far. -/
structure Lienzo where
  pagina : Nat
  y : Nat
  eventos : List Evento
deriving DecidableEq

/-- verificarYPaginar (src/lib/pdf.ts lines 16-22): when the needed space
would cross the bottom margin, add a page and reset the cursor to the top
margin. -/
def verificarYPaginar (l : Lienzo) (espacio : Nat) : Lienzo :=
  if limiteInferior < l.y + espacio then
    { pagina := l.pagina + 1, y := margenPag, eventos := l.eventos }
  else l

def dibujar (l : Lienzo) (b : Bloque) (d : Nat) : Lienzo :=
  { l with eventos := l.eventos ++ [{ pagina := l.pagina, y := l.y + d, bloque := b }] }

def avanzar (l : Lienzo) (d : Nat) : Lienzo := { l with y := l.y + d }

/-- Shared document header: title at the cursor, case number 10 units above
the post-title cursor (drawn at cursor + 5), separator rule, cursor advanced
by 25 in total - pdf.ts lines 44-58 and 165-179. -/
def cabeceraDocumento (l : Lienzo) : Lienzo :=
  avanzar (dibujar (avanzar (dibujar (dibujar l .titulo 0) .numeroCaso 5) 15) .separador 0) 10

/-- One checked line: pagination check for esp units, draw at the resulting
cursor, advance by salto.  This is the shape of each labeled key-value row
(esp = salto = 8) and of each wrapped text line (esp = salto = 5 or 6). -/
def lineaEnvuelta (esp salto : Nat) (b : Bloque) (l : Lienzo) : Lienzo :=
  avanzar (dibujar (verificarYPaginar l esp) b 0) salto

def lineasEnvueltas (esp salto : Nat) (b : Bloque) : Nat → Lienzo → Lienzo
  | 0, l => l
  | n + 1, l => lineasEnvueltas esp salto b n (lineaEnvuelta esp salto b l)

def filasDatos : Nat → Lienzo → Lienzo
  | 0, l => l
  | n + 1, l => filasDatos n (lineaEnvuelta 8 8 .etiqueta l)

/-- The observaciones block (pdf.ts lines 88-103 and 226-241): check 20,
advance 5, heading, advance 6, then one checked 6-unit line per wrapped
text line, then a trailing advance (5 in the intake receipt, 10 in the
delivery certificate).  n is the number of wrapped lines the jsPDF
splitTextToSize call produces; it is kept abstract because it depends on
the text, and any count is realisable by some input. -/
def seccionObservaciones (n finExtra : Nat) (l : Lienzo) : Lienzo :=
  avanzar (lineasEnvueltas 6 6 .lineaObs n
    (avanzar (dibujar (avanzar (verificarYPaginar l 20) 5) .encabezado 0) 6)) finExtra

/-- A paragraph block of the delivery certificate (confirmation, warranty,
resolution reason): check 30, optional advance 5, heading, advance 8, then
checked 5-unit wrapped lines, then a trailing advance. -/
def seccionParrafo (preAvance n finExtra : Nat) (l : Lienzo) : Lienzo :=
  avanzar (lineasEnvueltas 5 5 .lineaTexto n
    (avanzar (dibujar (avanzar (verificarYPaginar l 30) preAvance) .encabezado 0) 8)) finExtra

/-- The signature block after its 80-unit check: rule, advance 20, FIRMA
title, advance 15, check 50, signature rectangle (height 35), advance 45,
then the four name/date text lines at offsets 0, 6, 12 and 18 from there,
drawn without any further check - pdf.ts lines 105-137 and 303-334. -/
def colaFirma (l : Lienzo) : Lienzo :=
  let l2 := avanzar (dibujar l .separador 0) 20
  let l3 := avanzar (dibujar l2 .tituloFirma 0) 15
  let l4 := verificarYPaginar l3 50
  let l5 := avanzar (dibujar l4 .rectFirma 0) 45
  let l6 := avanzar (dibujar (dibujar l5 .textoFirma 0) .textoFirma 6) 12
  dibujar (dibujar l6 .textoFirma 0) .textoFirma 6

def seccionFirmaEntrega (l : Lienzo) : Lienzo := colaFirma (verificarYPaginar l 80)

def seccionFirmaRegistro (l : Lienzo) : Lienzo := colaFirma (avanzar (verificarYPaginar l 80) 10)

def lienzoInicial : Lienzo := { pagina := 1, y := margenPag, eventos := [] }

/-- generarPDFEntrega (src/lib/pdf.ts lines 158-339) as the sequence of
drawn items: header, six labeled rows, optional observaciones block,
confirmation paragraph, warranty paragraph, optional resolution-reason
paragraph, signature block.  The wrapped-line counts of the text blocks are
parameters: they are whatever splitTextToSize yields for the case's
interpolated strings, and every count of at least 1 is reachable. -/
def trazaEntrega (tieneObs : Bool) (nObs nConf nGar : Nat) (tieneMotivo : Bool) (nMot : Nat) : Lienzo :=
  let l2 := filasDatos 6 (cabeceraDocumento lienzoInicial)
  let l3 := if tieneObs then seccionObservaciones nObs 10 l2 else l2
  let l4 := seccionParrafo 5 nConf 10 l3
  let l5 := seccionParrafo 0 nGar 15 l4
  let l6 := if tieneMotivo then seccionParrafo 5 nMot 10 l5 else l5
  seccionFirmaEntrega l6

/-- generarPDFRegistro (src/lib/pdf.ts lines 37-142) as the sequence of
drawn items: header, five labeled rows, optional observaciones block (with
trailing advance 5), signature block preceded by an extra advance of 10. -/
def trazaRegistro (tieneObs : Bool) (nObs : Nat) : Lienzo :=
  let l2 := filasDatos 5 (cabeceraDocumento lienzoInicial)
  let l3 := if tieneObs then seccionObservaciones nObs 5 l2 else l2
  seccionFirmaRegistro l3

/-- An item drawn strictly below the page's bottom margin. -/
def fueraDeMargen (e : Evento) : Bool := decide (limiteInferior < e.y)

set_option maxRecDepth 8192

/-- Claim C5 counterexample: a delivery certificate with empty
observaciones, no resolution reason, a 4-line confirmation paragraph and a
5-line warranty paragraph (realisable with a long client name) stays on one
page, yet its final signature date line is drawn at y = 282, five units
below the bottom margin at 277, with no page break - so a block of the
certificate is drawn past the bottom margin without a preceding page
break. -/
theorem c5_contraejemplo :
    ((trazaEntrega false 0 4 5 false 0).eventos.filter fueraDeMargen).map
      (fun e => (e.pagina, e.y, e.bloque)) = [(1, 282, Bloque.textoFirma)] ∧
    (trazaEntrega false 0 4 5 false 0).pagina = 1 := by
  decide

/-- Claim C6 counterexample: an intake receipt whose notes wrap to 26 lines
- a 2,000-character notes field wraps to at least that many lines at the
receipt's 12-point font across the 170-unit text width - ends on page 2,
not on exactly one page: generarPDFRegistro has no line-height or font-size
shrink step at all, it paginates with the same helper as the delivery
certificate. -/
theorem c6_contraejemplo :
    (trazaRegistro true 26).pagina = 2 := by
  decide

/-- Every drawn item other than the signature-tail text lines sits at or
above the bottom margin. -/
def EventosAcotados (l : Lienzo) : Prop :=
  ∀ e ∈ l.eventos, e.bloque ≠ Bloque.textoFirma → e.y ≤ limiteInferior

def eventosNoFirmaDentro (l : Lienzo) : Bool :=
  l.eventos.all fun e => (e.bloque == Bloque.textoFirma) || decide (e.y ≤ limiteInferior)

lemma eventosNoFirmaDentro_iff (l : Lienzo) :
    eventosNoFirmaDentro l = true ↔ EventosAcotados l := by
  simp only [eventosNoFirmaDentro, EventosAcotados, List.all_eq_true, Bool.or_eq_true,
    beq_iff_eq, decide_eq_true_eq]
  constructor
  · intro h e he hb
    rcases h e he with h1 | h2
    · exact absurd h1 hb
    · exact h2
  · intro h e he
    by_cases hb : e.bloque = Bloque.textoFirma
    · exact Or.inl hb
    · exact Or.inr (h e he hb)

lemma paginar_add_le (l : Lienzo) (esp d : Nat) (hd : d ≤ esp) (hesp : esp ≤ 257) :
    (verificarYPaginar l esp).y + d ≤ limiteInferior := by
  unfold verificarYPaginar
  split_ifs with h
  · simp only [margenPag, limiteInferior, altoPagina] at *
    omega
  · simp only [limiteInferior, altoPagina] at *
    omega

lemma acotados_paginar {l : Lienzo} (esp : Nat) (h : EventosAcotados l) :
    EventosAcotados (verificarYPaginar l esp) := by
  unfold verificarYPaginar
  split_ifs <;> exact h

lemma acotados_avanzar {l : Lienzo} (d : Nat) (h : EventosAcotados l) :
    EventosAcotados (avanzar l d) := h

lemma acotados_dibujar {l : Lienzo} (b : Bloque) (d : Nat) (h : EventosAcotados l)
    (hnuevo : b ≠ Bloque.textoFirma → l.y + d ≤ limiteInferior) :
    EventosAcotados (dibujar l b d) := by
  intro e he hb
  simp only [dibujar, List.mem_append, List.mem_singleton] at he
  rcases he with he | rfl
  · exact h e he hb
  · exact hnuevo hb

lemma acotados_lineaEnvuelta {l : Lienzo} (esp salto : Nat) (b : Bloque)
    (hesp : esp ≤ 257) (h : EventosAcotados l) :
    EventosAcotados (lineaEnvuelta esp salto b l) :=
  acotados_avanzar _ (acotados_dibujar _ _ (acotados_paginar esp h)
    (fun _ => paginar_add_le l esp 0 (Nat.zero_le _) hesp))

lemma acotados_lineasEnvueltas (esp salto : Nat) (b : Bloque) (hesp : esp ≤ 257) :
    ∀ (n : Nat) (l : Lienzo), EventosAcotados l →
      EventosAcotados (lineasEnvueltas esp salto b n l)
  | 0, _, h => h
  | n + 1, _, h =>
    acotados_lineasEnvueltas esp salto b hesp n _ (acotados_lineaEnvuelta esp salto b hesp h)

lemma acotados_seccionObservaciones {l : Lienzo} (n finExtra : Nat) (h : EventosAcotados l) :
    EventosAcotados (seccionObservaciones n finExtra l) := by
  refine acotados_avanzar _ (acotados_lineasEnvueltas 6 6 _ (by omega) n _ ?_)
  refine acotados_avanzar _ (acotados_dibujar _ _ (acotados_avanzar _ (acotados_paginar 20 h)) ?_)
  intro _
  have := paginar_add_le l 20 5 (by omega) (by omega)
  simp only [avanzar]
  omega

lemma acotados_seccionParrafo {l : Lienzo} (preAvance n finExtra : Nat)
    (hpre : preAvance ≤ 30) (h : EventosAcotados l) :
    EventosAcotados (seccionParrafo preAvance n finExtra l) := by
  refine acotados_avanzar _ (acotados_lineasEnvueltas 5 5 _ (by omega) n _ ?_)
  refine acotados_avanzar _ (acotados_dibujar _ _ (acotados_avanzar _ (acotados_paginar 30 h)) ?_)
  intro _
  have := paginar_add_le l 30 preAvance hpre (by omega)
  simp only [avanzar]
  omega

lemma acotados_colaFirma {l : Lienzo} (h : EventosAcotados l)
    (hy : l.y + 20 ≤ limiteInferior) :
    EventosAcotados (colaFirma l) := by
  unfold colaFirma
  refine acotados_dibujar _ _ (acotados_dibujar _ _ ?_ (fun hb => absurd rfl hb))
    (fun hb => absurd rfl hb)
  refine acotados_avanzar _ (acotados_dibujar _ _ (acotados_dibujar _ _ ?_ (fun hb => absurd rfl hb))
    (fun hb => absurd rfl hb))
  refine acotados_avanzar _ (acotados_dibujar _ _ (acotados_paginar 50 ?_) ?_)
  · refine acotados_avanzar _ (acotados_dibujar _ _ (acotados_avanzar _ (acotados_dibujar _ _ h ?_)) ?_)
    · intro _
      omega
    · intro _
      simp only [avanzar, dibujar]
      omega
  · intro _
    exact paginar_add_le _ 50 0 (Nat.zero_le _) (by omega)

lemma acotados_seccionFirmaEntrega {l : Lienzo} (h : EventosAcotados l) :
    EventosAcotados (seccionFirmaEntrega l) := by
  refine acotados_colaFirma (acotados_paginar 80 h) ?_
  exact paginar_add_le l 80 20 (by omega) (by omega)

/-- Claim C5, amended: in the delivery certificate every labeled line,
block heading and wrapped-text line is preceded by a pagination check and
is never drawn below the bottom margin, for all input cases (all wrapped
line counts and optional blocks); only the four signature-tail name/date
lines, which have no check of their own, can land below the margin (see
the counterexample). -/
theorem c5_teorema (tieneObs : Bool) (nObs nConf nGar : Nat) (tieneMotivo : Bool) (nMot : Nat) :
    eventosNoFirmaDentro (trazaEntrega tieneObs nObs nConf nGar tieneMotivo nMot) = true := by
  rw [eventosNoFirmaDentro_iff]
  unfold trazaEntrega
  have hbase : EventosAcotados (filasDatos 6 (cabeceraDocumento lienzoInicial)) := by
    rw [← eventosNoFirmaDentro_iff]
    decide
  refine acotados_seccionFirmaEntrega ?_
  cases tieneMotivo <;> cases tieneObs <;>
    simp only [if_true, if_false, Bool.false_eq_true] <;>
    first
      | exact acotados_seccionParrafo 0 nGar 15 (by omega)
          (acotados_seccionParrafo 5 nConf 10 (by omega) hbase)
      | exact acotados_seccionParrafo 0 nGar 15 (by omega)
          (acotados_seccionParrafo 5 nConf 10 (by omega)
            (acotados_seccionObservaciones nObs 10 hbase))
      | exact acotados_seccionParrafo 5 nMot 10 (by omega)
          (acotados_seccionParrafo 0 nGar 15 (by omega)
            (acotados_seccionParrafo 5 nConf 10 (by omega) hbase))
      | exact acotados_seccionParrafo 5 nMot 10 (by omega)
          (acotados_seccionParrafo 0 nGar 15 (by omega)
            (acotados_seccionParrafo 5 nConf 10 (by omega)
              (acotados_seccionObservaciones nObs 10 hbase)))

/-- Number of drawn notes lines - used to state that every wrapped notes
line of the input appears in the output. -/
def cuentaLineasObs (l : Lienzo) : Nat :=
  l.eventos.countP fun e => e.bloque == Bloque.lineaObs

lemma cuenta_dibujar (l : Lienzo) (b : Bloque) (d : Nat) :
    cuentaLineasObs (dibujar l b d) =
      cuentaLineasObs l + (if b = Bloque.lineaObs then 1 else 0) := by
  cases b <;>
    simp [cuentaLineasObs, dibujar, List.countP_append, List.countP_cons, List.countP_nil]

lemma cuenta_paginar (l : Lienzo) (esp : Nat) :
    cuentaLineasObs (verificarYPaginar l esp) = cuentaLineasObs l := by
  unfold verificarYPaginar
  split_ifs <;> rfl

lemma cuenta_avanzar (l : Lienzo) (d : Nat) :
    cuentaLineasObs (avanzar l d) = cuentaLineasObs l := rfl

lemma cuenta_lineasEnvueltas_obs :
    ∀ (n : Nat) (l : Lienzo),
      cuentaLineasObs (lineasEnvueltas 6 6 Bloque.lineaObs n l) = cuentaLineasObs l + n := by
  intro n
  induction n with
  | zero => intro l; rfl
  | succ n ih =>
    intro l
    show cuentaLineasObs (lineasEnvueltas 6 6 Bloque.lineaObs n
      (lineaEnvuelta 6 6 Bloque.lineaObs l)) = cuentaLineasObs l + (n + 1)
    rw [ih]
    unfold lineaEnvuelta
    rw [cuenta_avanzar, cuenta_dibujar, cuenta_paginar]
    simp
    omega

lemma cuenta_colaFirma (l : Lienzo) : cuentaLineasObs (colaFirma l) = cuentaLineasObs l := by
  unfold colaFirma
  simp only [cuenta_dibujar, cuenta_avanzar, cuenta_paginar]
  simp

lemma cuenta_seccionFirmaRegistro (l : Lienzo) :
    cuentaLineasObs (seccionFirmaRegistro l) = cuentaLineasObs l := by
  unfold seccionFirmaRegistro
  rw [cuenta_colaFirma, cuenta_avanzar, cuenta_paginar]

lemma pagina_paginar_le (l : Lienzo) (esp : Nat) :
    l.pagina ≤ (verificarYPaginar l esp).pagina := by
  unfold verificarYPaginar
  split_ifs <;> simp

lemma pagina_colaFirma (l : Lienzo) : l.pagina ≤ (colaFirma l).pagina := by
  simp only [colaFirma, verificarYPaginar, avanzar, dibujar]
  split_ifs <;> simp

lemma pagina_lineasEnvueltas (esp salto : Nat) (b : Bloque) :
    ∀ (n : Nat) (l : Lienzo), l.pagina ≤ (lineasEnvueltas esp salto b n l).pagina := by
  intro n
  induction n with
  | zero => intro l; exact le_refl _
  | succ n ih =>
    intro l
    exact le_trans (pagina_paginar_le l esp) (ih (lineaEnvuelta esp salto b l))

lemma bucle_sin_salto (b : Bloque) :
    ∀ (n : Nat) (l : Lienzo), l.y + 6 * n ≤ limiteInferior →
      (lineasEnvueltas 6 6 b n l).y = l.y + 6 * n ∧
      (lineasEnvueltas 6 6 b n l).pagina = l.pagina := by
  intro n
  induction n with
  | zero => intro l _; exact ⟨by simp [lineasEnvueltas], rfl⟩
  | succ n ih =>
    intro l h
    have hnp : ¬ (limiteInferior < l.y + 6) := by omega
    have hle : lineaEnvuelta 6 6 b l = avanzar (dibujar l b 0) 6 := by
      unfold lineaEnvuelta verificarYPaginar
      rw [if_neg hnp]
    obtain ⟨hy, hp⟩ := ih (avanzar (dibujar l b 0) 6)
      (by simp only [avanzar, dibujar]; omega)
    constructor
    · show (lineasEnvueltas 6 6 b n (lineaEnvuelta 6 6 b l)).y = l.y + 6 * (n + 1)
      rw [hle, hy]
      simp only [avanzar, dibujar]
      omega
    · show (lineasEnvueltas 6 6 b n (lineaEnvuelta 6 6 b l)).pagina = l.pagina
      rw [hle, hp]
      rfl

lemma bucle_con_salto (b : Bloque) :
    ∀ (n : Nat) (l : Lienzo), 1 ≤ n → limiteInferior < l.y + 6 * n →
      l.pagina + 1 ≤ (lineasEnvueltas 6 6 b n l).pagina := by
  intro n
  induction n with
  | zero => intro l h; omega
  | succ n ih =>
    intro l _ h
    show l.pagina + 1 ≤ (lineasEnvueltas 6 6 b n (lineaEnvuelta 6 6 b l)).pagina
    by_cases hp : limiteInferior < l.y + 6
    · have hfirst : (lineaEnvuelta 6 6 b l).pagina = l.pagina + 1 := by
        unfold lineaEnvuelta verificarYPaginar
        rw [if_pos hp]
        rfl
      rw [← hfirst]
      exact pagina_lineasEnvueltas 6 6 b n _
    · have hle : lineaEnvuelta 6 6 b l = avanzar (dibujar l b 0) 6 := by
        unfold lineaEnvuelta verificarYPaginar
        rw [if_neg hp]
      have hn1 : 1 ≤ n := by omega
      have harg : limiteInferior < (lineaEnvuelta 6 6 b l).y + 6 * n := by
        rw [hle]
        simp only [avanzar, dibujar]
        omega
      have hpag : (lineaEnvuelta 6 6 b l).pagina = l.pagina := by
        rw [hle]
        rfl
      rw [← hpag]
      exact ih (lineaEnvuelta 6 6 b l) hn1 harg

/-- The intake receipt's drawing state just before the wrapped notes lines:
page 1, cursor at 96. -/
def inicioNotasRegistro : Lienzo :=
  avanzar (dibujar (avanzar (verificarYPaginar (filasDatos 5 (cabeceraDocumento lienzoInicial)) 20) 5)
    Bloque.encabezado 0) 6

lemma trazaRegistro_eq (n : Nat) :
    trazaRegistro true n =
      seccionFirmaRegistro (avanzar (lineasEnvueltas 6 6 Bloque.lineaObs n inicioNotasRegistro) 5) := rfl

/-- Claim C6, amended: the intake receipt has no shrink step - all wrapped
notes lines appear in the output (one drawn line per input line), and as
soon as the notes wrap to 17 or more lines the signature block no longer
fits and the receipt spans at least two pages; in particular a
2,000-character notes field (26 or more wrapped lines) does not render on
exactly one page. -/
theorem c6_teorema (n : Nat) :
    cuentaLineasObs (trazaRegistro true n) = n ∧
    (17 ≤ n → 2 ≤ (trazaRegistro true n).pagina) := by
  have hy0 : inicioNotasRegistro.y = 96 := by decide
  have hp0 : inicioNotasRegistro.pagina = 1 := by decide
  have hc0 : cuentaLineasObs inicioNotasRegistro = 0 := by decide
  constructor
  · rw [trazaRegistro_eq, cuenta_seccionFirmaRegistro, cuenta_avanzar,
      cuenta_lineasEnvueltas_obs, hc0]
    omega
  · intro hn
    rw [trazaRegistro_eq]
    have hcola : ∀ (x : Lienzo), 2 ≤ x.pagina → 2 ≤ (colaFirma (avanzar x 10)).pagina := by
      intro x h2
      have h3 := pagina_colaFirma (avanzar x 10)
      have h4 : (avanzar x 10).pagina = x.pagina := rfl
      omega
    show 2 ≤ (colaFirma (avanzar (verificarYPaginar
      (avanzar (lineasEnvueltas 6 6 Bloque.lineaObs n inicioNotasRegistro) 5) 80) 10)).pagina
    apply hcola
    by_cases hcase : 96 + 6 * n ≤ limiteInferior
    · obtain ⟨hy, hp⟩ := bucle_sin_salto Bloque.lineaObs n inicioNotasRegistro
        (by rw [hy0]; exact hcase)
      rw [hy0] at hy
      rw [hp0] at hp
      have hcond : limiteInferior <
          (avanzar (lineasEnvueltas 6 6 Bloque.lineaObs n inicioNotasRegistro) 5).y + 80 := by
        simp only [avanzar, hy, limiteInferior, altoPagina, margenPag] at *
        omega
      unfold verificarYPaginar
      rw [if_pos hcond]
      simp only [avanzar]
      omega
    · have hs : limiteInferior < inicioNotasRegistro.y + 6 * n := by
        rw [hy0]
        omega
      have hn1 : 1 ≤ n := by omega
      have hloop := bucle_con_salto Bloque.lineaObs n inicioNotasRegistro hn1 hs
      rw [hp0] at hloop
      have hmono := pagina_paginar_le
        (avanzar (lineasEnvueltas 6 6 Bloque.lineaObs n inicioNotasRegistro) 5) 80
      have heq : (avanzar (lineasEnvueltas 6 6 Bloque.lineaObs n inicioNotasRegistro) 5).pagina =
          (lineasEnvueltas 6 6 Bloque.lineaObs n inicioNotasRegistro).pagina := rfl
      omega

/-- Witness for c6_teorema at 26 wrapped notes lines. -/
theorem c6_testigo :
    cuentaLineasObs (trazaRegistro true 26) = 26 ∧ 2 ≤ (trazaRegistro true 26).pagina :=
  ⟨(c6_teorema 26).1, (c6_teorema 26).2 (by omega)⟩
